import Mathlib

/-!
Verification of the WICCON social battery SAO firmware
(`src/social_battery_firmware/main.c`) against its design specification.

The definitions below are a shallow embedding of the firmware's data model
and per-tick operations: machine integers are modelled as `Nat`/`Int` with
explicit `% 256` / `% 65536` where the C code performs `uint8_t`/`uint16_t`
arithmetic, arrays are `List Nat` with fallible `get?` access, and the
interrupt-driven I2C handler is modelled by an explicit interleaving
semantics over the publish action sequence.
-/

set_option autoImplicit false

namespace SocialBattery

/-! ### Register map (the `I2C_REG_*` defines of main.c) -/

/-- `volatile uint8_t i2c_registers[35]`: the register file holds 35 bytes,
so the valid indices are 0..34. -/
def i2cRegistersSize : Nat := 35

def I2C_REG_FW_VERSION_0 : Nat := 0
def I2C_REG_FW_VERSION_1 : Nat := 1
def I2C_REG_GPIO_MODE : Nat := 2
def I2C_REG_GPIO_INPUTS : Nat := 3
def I2C_REG_GPIO_OUTPUTS : Nat := 4
def I2C_REG_MODE : Nat := 5
def I2C_REG_TOUCH0_0 : Nat := 6
def I2C_REG_SOCIAL_LEVEL : Nat := 16
def I2C_REG_RAINBOW_SPEED : Nat := 17
def I2C_REG_KNIGHTRIDER_SPEED : Nat := 18
def I2C_REG_BUTTON : Nat := 19
def I2C_REG_BUTTON_ENABLED : Nat := 20
def I2C_REG_ADDR_LED0_GREEN : Nat := 21
def I2C_REG_ADDR_LED4_BLUE : Nat := 35

/-! ### Mode-0 passthrough transmission

In mode 0 the main loop calls
`write_addressable_leds((uint8_t*) &i2c_registers[I2C_REG_ADDR_LED0_GREEN], 15)`,
i.e. it reads the 15 consecutive bytes at indices 21..35 of the register
array. We model the read of each index with `List.get?`, which returns
`none` for an index outside the array. -/

/-- The 15 indices the mode-0 passthrough transmission reads. -/
def mode0ReadIndices : List Nat :=
  (List.range 15).map (fun k => I2C_REG_ADDR_LED0_GREEN + k)

/-- Read a list of register indices in order; `none` as soon as one index
falls outside the array. -/
def readRange (regs : List Nat) : List Nat → Option (List Nat)
  | [] => some []
  | i :: is =>
    match regs.get? i, readRange regs is with
    | some v, some vs => some (v :: vs)
    | _, _ => none

/-- The bytes the mode-0 passthrough hands to the LED serializer. -/
def mode0TransmitBytes (regs : List Nat) : Option (List Nat) :=
  readRange regs mode0ReadIndices

theorem readRange_eq_none (regs : List Nat) (i : Nat) :
    ∀ is : List Nat, i ∈ is → regs.get? i = none → readRange regs is = none := by
  intro is
  induction is with
  | nil => intro h; exact absurd h (List.not_mem_nil i)
  | cons j tl ih =>
    intro hmem hnone
    rcases List.mem_cons.mp hmem with h | h
    · subst h
      simp only [readRange, hnone]
    · simp only [readRange, ih h hnone]
      rcases regs.get? j with _ | v <;> rfl

/-! ### Touch level detection (main loop)

```c
for (uint8_t i = 0; i < 5; i++) {
    touch_value[i] = raw_touch_value[i] - baseline[i];
    if (touch_value[i] > 1900) {
        social_level = i;
    }
}
```

The loop body only reads `touch_value[i]` (a signed 32-bit delta) and
conditionally overwrites `social_level`; we unroll the five iterations. -/

/-- One tick of the touch-level update: for i = 0..4 in ascending order,
overwrite the level with i whenever the signed delta of channel i exceeds
1900. `delta i` models `touch_value[i]`, the signed 32-bit difference
`raw_touch_value[i] - baseline[i]`; only indices 0..4 are ever read. -/
def touchLevelUpdate (delta : Nat → Int) (level : Nat) : Nat :=
  let l0 := if delta 0 > 1900 then 0 else level
  let l1 := if delta 1 > 1900 then 1 else l0
  let l2 := if delta 2 > 1900 then 2 else l1
  let l3 := if delta 3 > 1900 then 3 else l2
  if delta 4 > 1900 then 4 else l3

/-! ### Button edge detection and mode advance (main loop)

```c
bool button = !funDigitalRead(PIN_BUTTON);
if (button && !prev_button && button_enabled) {
    system_mode++;
    if (system_mode > 7) system_mode = 1;
}
prev_button = button;
```

`system_mode` is a `uint8_t`, so the increment wraps modulo 256. -/

/-- The mode after one tick's button handling. -/
def buttonModeStep (mode : Nat) (button prevButton enabled : Bool) : Nat :=
  if button && !prevButton && enabled then
    let m := (mode + 1) % 256
    if m > 7 then 1 else m
  else mode

/-- The outputs of one tick's button section, in source order: the mode
advance reads the old `prev_button`, then `prev_button = button` runs, and
only afterwards does the register update publish
`(button & 1) | ((prev_button & 1) << 1)` into register 19. -/
structure ButtonTick where
  mode : Nat
  prevOut : Bool
  reg19 : Nat
deriving DecidableEq, Repr

def buttonTick (mode : Nat) (prev button enabled : Bool) : ButtonTick :=
  let mode2 := buttonModeStep mode button prev enabled
  let prev2 := button
  { mode := mode2
    prevOut := prev2
    reg19 := (cond button 1 0) ||| ((cond prev2 1 0) <<< 1) }

/-! ### Knightrider scanner (modes 5-7): `knightrider_step`

```c
void knightrider_step(uint8_t color) {
    for (uint8_t i = 0; i < 15; i++) {
        if (led_effect_data[i] > 10) { led_effect_data[i] -= 10; }
        else { led_effect_data[i] = 0; }
    }
    if (knightrider_value > (0xFF - knightrider_speed)) {
        knightrider_value = 0;
        if (!knightrider_direction) {
            knightrider_led++;
            if (knightrider_led >= 4) { knightrider_direction = true; }
        } else {
            knightrider_led--;
            if (knightrider_led == 0) { knightrider_direction = false; }
        }
    } else { knightrider_value++; }
    if (led_effect_data[(knightrider_led * 3) + color] < 215) {
        led_effect_data[(knightrider_led * 3) + color] += 50;
    } else {
        led_effect_data[(knightrider_led * 3) + color] = 255;
    }
}
```

`led_effect_data` holds `uint8_t` values, `knightrider_led` is a `uint8_t`
(so `++`/`--` wrap modulo 256) and `knightrider_value` is a `uint16_t`. -/

structure KRState where
  buffer : List Nat
  led : Nat
  value : Nat
  direction : Bool
deriving DecidableEq, Repr

/-- The compiled-in initial scanner state: buffer zeroed, head at 0,
accumulator 0, direction forward (`knightrider_direction = false`). -/
def krInit : KRState :=
  { buffer := List.replicate 15 0, led := 0, value := 0, direction := false }

/-- The decay loop: every byte moves toward 0 by 10, clamped at 0. -/
def krDecay (b : List Nat) : List Nat := b.map (fun v => if v > 10 then v - 10 else 0)

/-- The accumulator/head-move block: returns (led, value, direction). -/
def krMove (speed led value : Nat) (direction : Bool) : Nat × Nat × Bool :=
  if value > 255 - speed then
    if !direction then
      let led2 := (led + 1) % 256
      (led2, 0, if led2 ≥ 4 then true else direction)
    else
      let led2 := (led + 255) % 256
      (led2, 0, if led2 = 0 then false else direction)
  else
    (led, (value + 1) % 65536, direction)

/-- The ramp on the head LED's designated channel: `+= 50` is `uint8_t`
addition, i.e. modulo 256; the guard fires only for bytes ≥ 215. -/
def krRamp (b : List Nat) (idx : Nat) : List Nat :=
  match b.get? idx with
  | none => b
  | some old => if old < 215 then b.set idx ((old + 50) % 256) else b.set idx 255

def knightrider_step (color speed : Nat) (s : KRState) : KRState :=
  let buf := krDecay s.buffer
  let m := krMove speed s.led s.value s.direction
  { buffer := krRamp buf (m.1 * 3 + color)
    led := m.1
    value := m.2.1
    direction := m.2.2 }

/-- Run the scanner from the initial state under a per-tick sequence of
(color, speed) parameters; both are host-influenced (the mode selects the
color, register 18 the speed) and may change between ticks. -/
def krRun (steps : List (Nat × Nat)) : KRState :=
  steps.foldl (fun s p => knightrider_step p.1 p.2 s) krInit

/-- The scanner's inductive invariant: while moving forward the head is in
0..3, while moving backward it is in 1..4. -/
def KRInv (s : KRState) : Prop :=
  (s.direction = false → s.led ≤ 3) ∧ (s.direction = true → 1 ≤ s.led ∧ s.led ≤ 4)

theorem krInv_init : KRInv krInit := by
  constructor <;> simp [krInit]

theorem krInv_step (c sp : Nat) (s : KRState) (h : KRInv s) :
    KRInv (knightrider_step c sp s) := by
  obtain ⟨h1, h2⟩ := h
  simp only [KRInv, knightrider_step, krMove]
  cases hd : s.direction <;> simp only [hd] at h1 h2 <;>
    split_ifs <;> simp_all <;> omega

theorem krRun_inv (steps : List (Nat × Nat)) : KRInv (krRun steps) := by
  suffices h : ∀ (l : List (Nat × Nat)) (s : KRState), KRInv s →
      KRInv (l.foldl (fun t p => knightrider_step p.1 p.2 t) s) from
    h steps krInit krInv_init
  intro l
  induction l with
  | nil => intro s hs; exact hs
  | cons p tl ih => intro s hs; exact ih _ (krInv_step p.1 p.2 s hs)

theorem krStep_flip (c sp : Nat) (s : KRState) (h : KRInv s) :
    (knightrider_step c sp s).led ≤ 4 ∧
      ((knightrider_step c sp s).direction ≠ s.direction ↔
        (s.direction = false ∧ (knightrider_step c sp s).led = 4) ∨
        (s.direction = true ∧ (knightrider_step c sp s).led = 0)) := by
  obtain ⟨h1, h2⟩ := h
  simp only [knightrider_step, krMove]
  cases hd : s.direction <;> simp only [hd] at h1 h2 <;>
    split_ifs <;> simp_all <;> omega

/-- Claim C3: starting from the initial scanner state (head 0, direction
forward), for every sequence of scanner steps under arbitrary per-tick
colors and host-chosen speeds, the head position stays in [0,4]; moreover on
the next step, with any color and speed, the direction changes exactly when
that step brings the position to the endpoint: forward flips to backward
exactly when the position reaches 4, and backward flips to forward exactly
when the position reaches 0. -/
theorem knightrider_position_direction_invariant :
    ∀ (steps : List (Nat × Nat)) (color speed : Nat),
      (krRun steps).led ≤ 4 ∧ (knightrider_step color speed (krRun steps)).led ≤ 4 ∧
      ((knightrider_step color speed (krRun steps)).direction ≠ (krRun steps).direction ↔
        ((krRun steps).direction = false ∧ (knightrider_step color speed (krRun steps)).led = 4) ∨
        ((krRun steps).direction = true ∧ (knightrider_step color speed (krRun steps)).led = 0)) := by
  intro steps color speed
  have hinv := krRun_inv steps
  have hflip := krStep_flip color speed (krRun steps) hinv
  refine ⟨?_, hflip.1, hflip.2⟩
  rcases hinv with ⟨p1, p2⟩
  cases hdir : (krRun steps).direction
  · exact le_trans (p1 hdir) (by norm_num)
  · exact (p2 hdir).2

/-- The per-tick (color, speed) schedule that exhibits the ramp wrap: mode 5
(color 1) throughout, with a host-written scanner speed each tick. -/
def c4Steps : List (Nat × Nat) :=
  ([255, 255, 255, 255, 255, 255, 0, 0, 0, 0, 0, 255, 0, 0, 255] : List Nat).map
    (fun sp => (1, sp))

/-- Claim C4 (refuted; code bug): running the scanner from the initial state
under the `c4Steps` schedule, at the start of the 15th step the head byte
(index 10, LED 3's red channel) has decayed to 210; since 210 < 215 the code
takes the `+= 50` branch, which is `uint8_t` addition, and the byte wraps to
4 instead of saturating to min(210 + 50, 255) = 255. -/
theorem knightrider_ramp_wrap_at_210 :
    (krDecay (krRun (c4Steps.take 14)).buffer).get? 10 = some 210 ∧
    ((krRun c4Steps).buffer).get? 10 = some 4 ∧
    min (210 + 50) 255 = 255 ∧ (4 : Nat) ≠ 255 := by
  refine ⟨by decide, by decide, by decide, by decide⟩

/-! ### Boot-time bus check and fallback (main)

```c
if (funDigitalRead(PIN_SDA) || funDigitalRead(PIN_SCL)) {
    ... SetupI2CSlave(...); SetupSecondaryI2CSlave(...);
} else {
    for (uint8_t i = 0; i < 5; i++) {
        led_effect_data[i * 3 + 0] = 0x00;
        led_effect_data[i * 3 + 1] = 0xFF;
        led_effect_data[i * 3 + 2] = 0x00;
    }
    write_addressable_leds((uint8_t*) led_effect_data, 15);
    Delay_Ms(100);
}
```
-/

/-- The bus is considered usable when either line reads high after the
internal pull-downs are enabled. -/
def busUsable (sda scl : Bool) : Bool := sda || scl

/-- The fallback pattern loop, starting from the zeroed `led_effect_data`
buffer; the buffer's channel order is green, red, blue per LED. -/
def bootFallbackBuffer : List Nat :=
  (List.range 5).foldl
    (fun buf i => ((buf.set (i * 3 + 0) 0x00).set (i * 3 + 1) 0xFF).set (i * 3 + 2) 0x00)
    (List.replicate 15 0)

/-- The boot path's outcome after the bus check: either the two bus
peripherals are registered (and nothing is transmitted yet), or registration
is skipped and the fallback pattern is transmitted. -/
structure BootOutcome where
  registersBus : Bool
  fallbackTransmit : Option (List Nat)
deriving DecidableEq, Repr

def bootBusCheck (sda scl : Bool) : BootOutcome :=
  if busUsable sda scl then { registersBus := true, fallbackTransmit := none }
  else { registersBus := false, fallbackTransmit := some bootFallbackBuffer }

/-! ### LED serializer: `write_addressable_leds`

The serializer walks the buffer byte by byte, and within each byte walks the
bits from bit 7 down to bit 0 (`for (int i = 7; i >= 0; i--)`), testing
`(data[pos_byte] >> i) & 1`. A "1" bit holds the data line high for 36 nop
delays (2 nops of lead-in low first); a "0" bit holds it high for 14 nop
delays and then low for 20. We model each emitted bit as a `Pulse` of those
busy-wait nop counts. -/

structure Pulse where
  preLowNops : Nat
  highNops : Nat
  postLowNops : Nat
deriving DecidableEq, Repr

/-- The "Send 1" branch: 2 lead-in nops, line high for 36 nops, then low. -/
def sendOne : Pulse := { preLowNops := 2, highNops := 36, postLowNops := 0 }

/-- The "Send 0" branch: line high for 14 nops, then low for 20 nops. -/
def sendZero : Pulse := { preLowNops := 0, highNops := 14, postLowNops := 20 }

/-- One bit of one byte: `(data[pos_byte] >> i) & 1`. -/
def serializeBit (b i : Nat) : Pulse :=
  if (b >>> i) &&& 1 = 1 then sendOne else sendZero

/-- The inner loop `for (int i = 7; i >= 0; i--)`: bits emitted MSB first. -/
def serializeByte (b : Nat) : List Pulse :=
  ([7, 6, 5, 4, 3, 2, 1, 0] : List Nat).map (serializeBit b)

/-- The pulse train for a whole buffer (the outer loop over `length`). -/
def write_addressable_leds (data : List Nat) : List Pulse :=
  (data.map serializeByte).flatten

/-! ### Register publish critical section (main loop)

```c
I2C1->CTLR2 &= ~(I2C_CTLR2_ITEVTEN); // Disable I2C event interrupt
i2c_registers[I2C_REG_FW_VERSION_0] = (FW_VERSION     ) & 0xFF;
i2c_registers[I2C_REG_FW_VERSION_1] = (FW_VERSION >> 8) & 0xFF;
i2c_registers[I2C_REG_GPIO_INPUTS] = read_other_inputs();
i2c_registers[I2C_REG_SOCIAL_LEVEL] = social_level;
i2c_registers[I2C_REG_RAINBOW_SPEED] = rainbow_speed;
i2c_registers[I2C_REG_KNIGHTRIDER_SPEED] = knightrider_speed;
i2c_registers[I2C_REG_BUTTON] = (button & 1) | ((prev_button & 1) << 1);
i2c_registers[I2C_REG_BUTTON_ENABLED] = button_enabled;
for (uint8_t i = 0; i < 5; i++) {
    uint16_t* touch_i2c_reg = (uint16_t*)&i2c_registers[I2C_REG_TOUCH0_0 + i * 2];
    *touch_i2c_reg = touch_value[i];
}
I2C1->CTLR2 |= I2C_CTLR2_ITEVTEN; // Enable I2C event interrupt
```

The bus-event handler may preempt the main loop at any action boundary, but
only while the I2C event interrupt is enabled. Each 16-bit touch store is
modelled as two byte stores (low, high) - a strictly finer grain than the
hardware's single 16-bit store, so atomicity proved here implies atomicity
of the real code. FW_VERSION is 1, so the two version bytes are 1 and 0. -/

inductive PubAction where
  | irqOff : PubAction
  | irqOn : PubAction
  | store : Nat → Nat → PubAction
deriving DecidableEq, Repr

structure PubState where
  regs : List Nat
  irqEnabled : Bool
deriving DecidableEq, Repr

def pubExec1 (s : PubState) : PubAction → PubState
  | .irqOff => { s with irqEnabled := false }
  | .irqOn => { s with irqEnabled := true }
  | .store i v => { s with regs := s.regs.set i v }

def pubExec (s : PubState) (acts : List PubAction) : PubState :=
  acts.foldl pubExec1 s

/-- The action sequence of the main loop's register update block, in source
order. -/
def publishActions (gpioIn social rainbow kr btn btnEn : Nat)
    (touchLo touchHi : Fin 5 → Nat) : List PubAction :=
  [.irqOff,
   .store I2C_REG_FW_VERSION_0 1, .store I2C_REG_FW_VERSION_1 0,
   .store I2C_REG_GPIO_INPUTS gpioIn, .store I2C_REG_SOCIAL_LEVEL social,
   .store I2C_REG_RAINBOW_SPEED rainbow, .store I2C_REG_KNIGHTRIDER_SPEED kr,
   .store I2C_REG_BUTTON btn, .store I2C_REG_BUTTON_ENABLED btnEn,
   .store 6 (touchLo 0), .store 7 (touchHi 0),
   .store 8 (touchLo 1), .store 9 (touchHi 1),
   .store 10 (touchLo 2), .store 11 (touchHi 2),
   .store 12 (touchLo 3), .store 13 (touchHi 3),
   .store 14 (touchLo 4), .store 15 (touchHi 4),
   .irqOn]

/-! ## Claim theorems -/

/-- Claim C1 (refuted; code bug): the mode-0 passthrough transmission reads
the 15 consecutive bytes at register indices 21..35, but the register array
has only 35 entries (valid indices 0..34); the read of register 35 (LED 4's
blue byte) falls outside the array, so for every register file of the
declared size the 15-byte read cannot be served from the array, and the
claimed round-trip of all 15 host-written bytes fails at the last byte. -/
theorem mode0_passthrough_reads_past_array :
    ∀ regs : List Nat, regs.length = i2cRegistersSize → mode0TransmitBytes regs = none := by
  intro regs h
  apply readRange_eq_none regs I2C_REG_ADDR_LED4_BLUE
  · decide
  · rw [List.get?_eq_none, h]
    decide

theorem mode0_passthrough_reads_past_array_witness :
    mode0TransmitBytes (List.replicate 35 0) = none :=
  mode0_passthrough_reads_past_array (List.replicate 35 0)
    (by rw [List.length_replicate]; rfl)

/-- Claim C2: one tick of the touch-level update overwrites the social level
with channel index i, for i ascending 0..4, whenever channel i's delta
exceeds 1900; so the highest-indexed channel over the threshold wins the
tick, and when no channel is over the threshold the previous level is
kept. -/
theorem touch_level_highest_channel_wins :
    ∀ (delta : Nat → Int) (level : Nat),
      ((∀ i, i < 5 → delta i ≤ 1900) → touchLevelUpdate delta level = level) ∧
      (∀ i, i < 5 → 1900 < delta i → (∀ j, i < j → j < 5 → delta j ≤ 1900) →
        touchLevelUpdate delta level = i) := by
  intro delta level
  constructor
  · intro h
    have h0 := h 0 (by omega); have h1 := h 1 (by omega); have h2 := h 2 (by omega)
    have h3 := h 3 (by omega); have h4 := h 4 (by omega)
    simp only [touchLevelUpdate]
    split_ifs <;> omega
  · intro i hi5 hi hj
    interval_cases i <;>
      (try have g1 := hj 1 (by omega) (by omega)) <;>
      (try have g2 := hj 2 (by omega) (by omega)) <;>
      (try have g3 := hj 3 (by omega) (by omega)) <;>
      (try have g4 := hj 4 (by omega) (by omega)) <;>
      simp only [touchLevelUpdate] <;> split_ifs <;> omega

/-- Claim C5 counterexample: with the mode register holding 255 (the host
may write any byte to it), a rising button edge while button control is
enabled increments the `uint8_t` mode, which wraps to 0; the `> 7` guard
then does not fire, so the button sets the mode to 0, outside 1..7. -/
theorem button_mode_from_255_wraps_to_0 :
    buttonModeStep 255 true false true = 0 ∧
    ¬ (1 ≤ buttonModeStep 255 true false true ∧ buttonModeStep 255 true false true ≤ 7) := by
  decide

/-- Claim C5 (amended): a button-driven mode change occurs only on a tick
with a rising edge (previous tick not pressed, current tick pressed) while
button control is enabled, and from every current mode value other than 255
the successor mode is in 1..7 (7 wraps to 1; the button never sets the mode
to 0); from mode 255 the `uint8_t` increment wraps to 0 instead. -/
theorem button_mode_step_range :
    ∀ (mode : Nat) (button prev enabled : Bool),
      (¬ (button = true ∧ prev = false ∧ enabled = true) →
        buttonModeStep mode button prev enabled = mode) ∧
      (mode < 255 → button = true → prev = false → enabled = true →
        1 ≤ buttonModeStep mode button prev enabled ∧
          buttonModeStep mode button prev enabled ≤ 7) ∧
      buttonModeStep 255 true false true = 0 := by
  intro mode button prev enabled
  refine ⟨?_, ?_, by decide⟩
  · intro h
    cases button <;> cases prev <;> cases enabled <;> simp_all [buttonModeStep]
  · intro hm hb hp he
    subst hb; subst hp; subst he
    simp only [buttonModeStep, Bool.and_self, Bool.not_false, Bool.and_true, if_true]
    have : (mode + 1) % 256 = mode + 1 := Nat.mod_eq_of_lt (by omega)
    rw [this]
    split_ifs <;> omega

/-- Claim C6 counterexample: when both bus lines read low, the fallback
buffer the firmware transmits has, for the first LED, green (index 0) = 0
and red (index 1) = 255 - not green = 255 and red = 0 as the claim states
(the buffer's channel order is green, red, blue). -/
theorem boot_fallback_first_led_not_green :
    (bootBusCheck false false).fallbackTransmit = some bootFallbackBuffer ∧
    bootFallbackBuffer.get? 0 = some 0 ∧ bootFallbackBuffer.get? 1 = some 255 ∧
    ¬ (bootFallbackBuffer.get? 0 = some 255 ∧ bootFallbackBuffer.get? 1 = some 0) := by
  decide

/-- Claim C6 (amended): if at boot both bus lines read low after enabling
the internal pull-downs, the firmware performs no bus peripheral
registration and transmits a fixed all-red pattern on the 5 LEDs: for every
LED, green = 0, red = 255, blue = 0. -/
theorem boot_fallback_all_red_no_registration :
    (bootBusCheck false false).registersBus = false ∧
    (bootBusCheck false false).fallbackTransmit =
      some [0, 255, 0, 0, 255, 0, 0, 255, 0, 0, 255, 0, 0, 255, 0] ∧
    (bootBusCheck false true).registersBus = true ∧
    (bootBusCheck true false).registersBus = true := by
  decide

/-- Claim C7 (refuted; code bug): `prev_button = button` runs before the
register update block, so the byte published to register 19 is
`(button & 1) | ((button & 1) << 1)`: bits 0 and 1 always carry the same
(current) sample, giving only 0b00 or 0b11. On a tick where the button state
changed (previous false, current true) the code publishes 0b11, whereas the
claim's bit1 = previous sample would give 0b01 - the bits never differ. -/
theorem button_register_bits_always_equal :
    ∀ (mode : Nat) (prev button enabled : Bool),
      (buttonTick mode prev button enabled).reg19 = cond button 3 0 ∧
      (buttonTick 1 false true true).reg19 = 3 ∧
      ((buttonTick mode prev button enabled).reg19 % 2 =
        (buttonTick mode prev button enabled).reg19 / 2 % 2) := by
  intro mode prev button enabled
  refine ⟨?_, by decide, ?_⟩ <;> cases button <;> simp [buttonTick]

/-- Claim C8: the serializer walks the buffer in order and each byte MSB
first; a "1" bit's pulse holds the line high strictly longer (36 nops) than
a "0" bit's (14 nops); in particular byte 0xA5 = 0b10100101 serializes to
the high-duration classes long, short, long, short, short, long, short,
long. -/
theorem led_serializer_msb_first_longer_high_for_one :
    ∀ (data : List Nat) (b : Nat),
      write_addressable_leds data = (data.map serializeByte).flatten ∧
      serializeByte b =
        ([7, 6, 5, 4, 3, 2, 1, 0] : List Nat).map
          (fun i => if (b >>> i) % 2 = 1 then sendOne else sendZero) ∧
      sendZero.highNops < sendOne.highNops ∧
      write_addressable_leds [0xA5] =
        [sendOne, sendZero, sendOne, sendZero, sendZero, sendOne, sendZero, sendOne] ∧
      (serializeByte 0xA5).map Pulse.highNops = [36, 14, 36, 14, 14, 36, 14, 36] := by
  intro data b
  refine ⟨rfl, ?_, by decide, by decide, by decide⟩
  have hsb : serializeBit b = fun i => if (b >>> i) % 2 = 1 then sendOne else sendZero := by
    funext i
    simp [serializeBit, Nat.and_one_is_mod]
  simp only [serializeByte, hsb]

/-- Claim C9: the main loop's register publish block (firmware-version bytes,
sensed values and the five 16-bit touch deltas) disables the bus-event
interrupt before its first store and re-enables it after its last; at every
prefix of the block at which the handler could run (interrupt enabled), the
register file equals either the full pre-publish contents or the full
post-publish contents, so the handler can never observe a region mixing
bytes from before and after the publish. -/
theorem publish_block_atomic_to_bus_handler :
    ∀ (regs0 : List Nat) (g so ra kr bt be : Nat) (lo hi : Fin 5 → Nat) (k : Nat),
      (pubExec ⟨regs0, true⟩ ((publishActions g so ra kr bt be lo hi).take k)).irqEnabled
          = false ∨
      (pubExec ⟨regs0, true⟩ ((publishActions g so ra kr bt be lo hi).take k)).regs = regs0 ∨
      (pubExec ⟨regs0, true⟩ ((publishActions g so ra kr bt be lo hi).take k)).regs =
        (pubExec ⟨regs0, true⟩ (publishActions g so ra kr bt be lo hi)).regs := by
  intro regs0 g so ra kr bt be lo hi k
  rcases Nat.lt_or_ge k 20 with hk | hk
  · interval_cases k <;> simp [publishActions, pubExec, pubExec1]
  · right; right
    rw [List.take_of_length_le (by simp [publishActions]; omega)]

/-- Claim C10 (refuted; code bug): the mode-0 passthrough transmission reads
register index 35 (`I2C_REG_ADDR_LED4_BLUE`), which is not within the
declared bounds [0,34] of the 35-entry `i2c_registers` array. -/
theorem register_access_out_of_bounds :
    I2C_REG_ADDR_LED4_BLUE ∈ mode0ReadIndices ∧
    ¬ I2C_REG_ADDR_LED4_BLUE < i2cRegistersSize := by
  decide

end SocialBattery
